import Mathlib

/-!
Verification of the request-normalization and response-extraction core of the
x-search-mcp server (src/api-client.ts and src/tools.ts), as a shallow
embedding in Lean.

Modelling conventions:
* JavaScript runtime values appearing in JSON payloads are embedded as the
  inductive `Json` below.  JSON numbers are restricted to integers (every
  number occurring in the verified claims is one); `undefined` is represented
  by `Option.none` at field-lookup boundaries.
* JavaScript string primitives are embedded as Lean `String`; the character
  operations used by the source (trim, toLowerCase, split, single-character
  replace, slice of a leading character) are re-implemented over `List Char`
  so that their behaviour is fully transparent to the proofs.
* The `fetch` transport is modelled by the explicit outcome type
  `FetchOutcome`: a rejection (network error or timeout, carrying the
  stringified exception) or a settled HTTP response (status plus body text).
-/

/-- JSON / JavaScript object values, as produced by `JSON.parse` and as built
by the test payloads.  Numbers are restricted to integers (a documented
restriction of the model; no claim involves a fractional JSON number). -/
inductive Json where
  | null : Json
  | bool (b : Bool) : Json
  | num (n : Int) : Json
  | str (s : String) : Json
  | arr (items : List Json) : Json
  | obj (fields : List (String × Json)) : Json
deriving Repr

mutual

/-- Structural equality test on embedded JSON values. -/
def Json.beq : Json → Json → Bool
  | .null, .null => true
  | .bool a, .bool b => a == b
  | .num a, .num b => a == b
  | .str a, .str b => a == b
  | .arr xs, .arr ys => jsonBeqList xs ys
  | .obj xs, .obj ys => jsonBeqFields xs ys
  | _, _ => false

def jsonBeqList : List Json → List Json → Bool
  | [], [] => true
  | x :: xs, y :: ys => Json.beq x y && jsonBeqList xs ys
  | _, _ => false

def jsonBeqFields : List (String × Json) → List (String × Json) → Bool
  | [], [] => true
  | (k1, v1) :: xs, (k2, v2) :: ys => k1 == k2 && Json.beq v1 v2 && jsonBeqFields xs ys
  | _, _ => false

end

instance : BEq Json := ⟨Json.beq⟩

/-- Property read `j[key]` on a JavaScript value: only objects carry own
properties; a missing property is `undefined`, i.e. `none`.  On duplicate
keys the later binding wins, matching `JSON.parse`. -/
def jsGet (j : Json) (key : String) : Option Json :=
  match j with
  | .obj fields => ((fields.filter (fun f => f.fst == key)).getLast?).map Prod.snd
  | _ => none

/-- JavaScript truthiness of a value. -/
def Json.truthy : Json → Bool
  | .null => false
  | .bool b => b
  | .num n => n != 0
  | .str s => s != ""
  | .arr _ => true
  | .obj _ => true

/-- Truthiness of a possibly-`undefined` value (`none` = `undefined`). -/
def truthyOpt : Option Json → Bool
  | some v => v.truthy
  | none => false

/-- The JavaScript short-circuit `a || b` on possibly-`undefined` values. -/
def jsOr (a b : Option Json) : Option Json :=
  match a with
  | some v => if v.truthy then some v else b
  | none => b

/-- `typeof e === "object" && e !== null` (arrays included). -/
def Json.isObjLike : Json → Bool
  | .obj _ => true
  | .arr _ => true
  | _ => false

mutual

/-- JavaScript `String(v)` conversion. -/
def jsToString : Json → String
  | .null => "null"
  | .bool b => if b then "true" else "false"
  | .num n => toString n
  | .str s => s
  | .obj _ => "[object Object]"
  | .arr items => String.intercalate "," (jsArrParts items)

/-- `Array.prototype.toString` pieces: elements stringified, `null` rendered
as the empty string, joined with commas by the caller. -/
def jsArrParts : List Json → List String
  | [] => []
  | .null :: rest => "" :: jsArrParts rest
  | x :: rest => jsToString x :: jsArrParts rest

end

/-- One hexadecimal digit (lowercase), for control-character escapes. -/
def hexDigitChar (n : Nat) : String :=
  if n < 10 then String.singleton (Char.ofNat (48 + n))
  else String.singleton (Char.ofNat (87 + n))

/-- `JSON.stringify` escaping of a single character inside a string. -/
def jsonEscapeChar (c : Char) : String :=
  if c = '"' then "\\\""
  else if c = '\\' then "\\\\"
  else if c = '\n' then "\\n"
  else if c = '\r' then "\\r"
  else if c = '\t' then "\\t"
  else if c.toNat = 8 then "\\b"
  else if c.toNat = 12 then "\\f"
  else if c.toNat < 32 then "\\u00" ++ hexDigitChar (c.toNat / 16) ++ hexDigitChar (c.toNat % 16)
  else String.singleton c

/-- A JSON string literal with its quotes. -/
def jsonQuote (s : String) : String :=
  "\"" ++ String.join (s.toList.map jsonEscapeChar) ++ "\""

mutual

/-- `JSON.stringify` on the embedded values. -/
def Json.stringify : Json → String
  | .null => "null"
  | .bool b => if b then "true" else "false"
  | .num n => toString n
  | .str s => jsonQuote s
  | .arr items => "[" ++ String.intercalate "," (jsonStringifyItems items) ++ "]"
  | .obj fields => "\x7b" ++ String.intercalate "," (jsonStringifyFields fields) ++ "\x7d"

def jsonStringifyItems : List Json → List String
  | [] => []
  | x :: rest => Json.stringify x :: jsonStringifyItems rest

def jsonStringifyFields : List (String × Json) → List String
  | [] => []
  | (k, v) :: rest => (jsonQuote k ++ ":" ++ Json.stringify v) :: jsonStringifyFields rest

end

/-- JSON whitespace (the four characters `JSON.parse` skips). -/
def jsonWs : List Char → List Char
  | c :: rest =>
    if c = ' ' ∨ c = '\t' ∨ c = '\n' ∨ c = '\r' then jsonWs rest else c :: rest
  | [] => []

/-- Value of a hexadecimal digit, if any. -/
def hexVal (c : Char) : Option Nat :=
  if c.isDigit then some (c.toNat - 48)
  else if 97 ≤ c.toNat ∧ c.toNat ≤ 102 then some (c.toNat - 87)
  else if 65 ≤ c.toNat ∧ c.toNat ≤ 70 then some (c.toNat - 55)
  else none

/-- Single-character escapes accepted after a backslash in a JSON string. -/
def jsonEscCode (c : Char) : Option Char :=
  if c = '"' then some '"'
  else if c = '\\' then some '\\'
  else if c = '/' then some '/'
  else if c = 'b' then some '\x08'
  else if c = 'f' then some '\x0c'
  else if c = 'n' then some '\n'
  else if c = 'r' then some '\r'
  else if c = 't' then some '\t'
  else none

/-- Body of a JSON string literal after its opening quote: returns the decoded
string and the input following the closing quote.  Fuelled to keep the
recursion structural. -/
def parseStringBody : Nat → List Char → Option (String × List Char)
  | 0, _ => none
  | _, [] => none
  | fuel + 1, c :: rest =>
    if c = '"' then some ("", rest)
    else if c = '\\' then
      match rest with
      | [] => none
      | e :: rest2 =>
        if e = 'u' then
          match rest2 with
          | h1 :: h2 :: h3 :: h4 :: rest3 =>
            match hexVal h1, hexVal h2, hexVal h3, hexVal h4 with
            | some a, some b, some c2, some d =>
              (parseStringBody fuel rest3).map
                (fun p => (String.singleton (Char.ofNat (((a * 16 + b) * 16 + c2) * 16 + d)) ++ p.1, p.2))
            | _, _, _, _ => none
          | _ => none
        else
          match jsonEscCode e with
          | some decoded =>
            (parseStringBody fuel rest2).map (fun p => (String.singleton decoded ++ p.1, p.2))
          | none => none
    else if c.toNat < 32 then none
    else (parseStringBody fuel rest).map (fun p => (String.singleton c ++ p.1, p.2))

/-- Digits folded to a natural number. -/
def digitsToNat (cs : List Char) : Nat :=
  cs.foldl (fun acc c => acc * 10 + (c.toNat - 48)) 0

/-- True when the input starts a fraction or exponent tail; the model keeps
JSON numbers integral and rejects these (documented restriction). -/
def startsFracOrExp : List Char → Bool
  | c :: _ => c = '.' || c = 'e' || c = 'E'
  | [] => false

/-- Unsigned JSON integer: `0`, or a nonzero digit followed by digits. -/
def parseNatNum (cs : List Char) : Option (Nat × List Char) :=
  match cs with
  | '0' :: rest => if startsFracOrExp rest then none else some (0, rest)
  | c :: rest =>
    if c.isDigit then
      let digits := c :: rest.takeWhile Char.isDigit
      let r := rest.dropWhile Char.isDigit
      if startsFracOrExp r then none else some (digitsToNat digits, r)
    else none
  | [] => none

/-- JSON number (integral): optional minus sign then an unsigned integer. -/
def parseNumber (cs : List Char) : Option (Json × List Char) :=
  match cs with
  | '-' :: rest => (parseNatNum rest).map (fun p => (Json.num (-(p.1 : Int)), p.2))
  | _ => (parseNatNum cs).map (fun p => (Json.num (p.1 : Int), p.2))

/-- Literal keyword tail, e.g. `rue` after the initial `t` of `true`. -/
def stripKeyword : List Char → List Char → Option (List Char)
  | [], cs => some cs
  | k :: ks, c :: cs => if c = k then stripKeyword ks cs else none
  | _ :: _, [] => none

mutual

/-- One JSON value at the head of the input (leading whitespace already
skipped); returns the value and the rest of the input. -/
def parseJsonValue : Nat → List Char → Option (Json × List Char)
  | 0, _ => none
  | fuel + 1, cs =>
    match cs with
    | [] => none
    | c :: rest =>
      if c = '"' then
        (parseStringBody (rest.length + 1) rest).map (fun p => (Json.str p.1, p.2))
      else if c = 't' then
        (stripKeyword ['r', 'u', 'e'] rest).map (fun r => (Json.bool true, r))
      else if c = 'f' then
        (stripKeyword ['a', 'l', 's', 'e'] rest).map (fun r => (Json.bool false, r))
      else if c = 'n' then
        (stripKeyword ['u', 'l', 'l'] rest).map (fun r => (Json.null, r))
      else if c = '[' then
        match jsonWs rest with
        | ']' :: r2 => some (Json.arr [], r2)
        | r1 => (parseJsonItems fuel r1).map (fun p => (Json.arr p.1, p.2))
      else if c = '\x7b' then
        match jsonWs rest with
        | '\x7d' :: r2 => some (Json.obj [], r2)
        | r1 => (parseJsonFields fuel r1).map (fun p => (Json.obj p.1, p.2))
      else
        parseNumber cs

/-- Comma-separated array elements up to and including the closing bracket. -/
def parseJsonItems : Nat → List Char → Option (List Json × List Char)
  | 0, _ => none
  | fuel + 1, cs =>
    match parseJsonValue fuel cs with
    | some (v, r1) =>
      match jsonWs r1 with
      | ',' :: r2 => (parseJsonItems fuel (jsonWs r2)).map (fun p => (v :: p.1, p.2))
      | ']' :: r2 => some ([v], r2)
      | _ => none
    | none => none

/-- Comma-separated object members up to and including the closing brace. -/
def parseJsonFields : Nat → List Char → Option (List (String × Json) × List Char)
  | 0, _ => none
  | fuel + 1, cs =>
    match cs with
    | '"' :: rest =>
      match parseStringBody (rest.length + 1) rest with
      | some (k, r1) =>
        match jsonWs r1 with
        | ':' :: r2 =>
          match parseJsonValue fuel (jsonWs r2) with
          | some (v, r3) =>
            match jsonWs r3 with
            | ',' :: r4 => (parseJsonFields fuel (jsonWs r4)).map (fun p => ((k, v) :: p.1, p.2))
            | '\x7d' :: r4 => some ([(k, v)], r4)
            | _ => none
          | none => none
        | _ => none
      | none => none
    | _ => none

end

/-- `JSON.parse`: a single value surrounded by optional whitespace; on any
violation of the grammar the call throws, modelled by `none`. -/
def Json.parse (s : String) : Option Json :=
  match parseJsonValue (s.length + 1) (jsonWs s.toList) with
  | some (v, rest) => if jsonWs rest = [] then some v else none
  | none => none

/-- The JavaScript whitespace set used by `String.prototype.trim` (WhiteSpace
plus LineTerminator code points). -/
def isJsSpace (c : Char) : Bool :=
  c = ' ' || c = '\t' || c = '\n' || c = '\r' || c = '\x0b' || c = '\x0c' ||
  c = ' ' || c = ' ' || c = ' ' || c = ' ' || c = ' ' ||
  c = ' ' || c = ' ' || c = ' ' || c = ' ' || c = ' ' ||
  c = ' ' || c = ' ' || c = ' ' || c = ' ' || c = ' ' ||
  c = ' ' || c = ' ' || c = '　' || c = '﻿'

/-- Leading and trailing JavaScript whitespace removed from a character list. -/
def trimChars (cs : List Char) : List Char :=
  ((cs.dropWhile isJsSpace).reverse.dropWhile isJsSpace).reverse

/-- `String.prototype.trim`. -/
def jsTrim (s : String) : String :=
  String.mk (trimChars s.toList)

/-- `String.prototype.toLowerCase`, restricted to ASCII case mapping (the only
case mapping the verified decisions can observe). -/
def jsToLower (s : String) : String :=
  String.mk (s.toList.map Char.toLower)

/-- The JavaScript idiom `s || dflt` on strings: the default replaces exactly
the empty string. -/
def jsStrOr (s dflt : String) : String :=
  if s = "" then dflt else s

/-- `value.replace(/＠/g, "@")` acts characterwise: every full-width
commercial at is rewritten to the ASCII one. -/
def normChar (c : Char) : Char :=
  if c = '＠' then '@' else c

/-- `String.prototype.split(",")`: the empty string yields one empty part,
and every comma opens a new part. -/
def splitOnComma : List Char → List (List Char)
  | [] => [[]]
  | c :: rest =>
    if c = ',' then [] :: splitOnComma rest
    else
      match splitOnComma rest with
      | part :: parts => (c :: part) :: parts
      | [] => [[c]]

/-- Embedding of `parseHandles` (src/api-client.ts, lines 6-16): split the
comma-separated handle string, normalize full-width at signs, trim each part,
drop empties, strip one leading at sign, drop the part if that left nothing. -/
def parseHandles (rawValue : String) : List String :=
  if rawValue = "" then []
  else
    (splitOnComma (rawValue.toList.map normChar)).filterMap fun part =>
      let handle := trimChars part
      if handle = [] then none
      else
        let stripped := if handle.head? = some '@' then handle.tail else handle
        if stripped = [] then none else some (String.mk stripped)

/-- First ten characters decomposed by the regular expression
`^\d{4}-\d{2}-\d{2}`: year, month, day and the remaining characters. -/
def isoDateLead (value : String) : Option (Nat × Nat × Nat × List Char) :=
  match value.toList with
  | y1 :: y2 :: y3 :: y4 :: c1 :: m1 :: m2 :: c2 :: d1 :: d2 :: rest =>
    if c1 = '-' && c2 = '-' &&
       ([y1, y2, y3, y4, m1, m2, d1, d2].all Char.isDigit) then
      some (digitsToNat [y1, y2, y3, y4], digitsToNat [m1, m2], digitsToNat [d1, d2], rest)
    else none
  | _ => none

/-- Gregorian leap year. -/
def isLeapYear (y : Nat) : Bool :=
  (y % 4 = 0 && y % 100 != 0) || y % 400 = 0

/-- Length of a month. -/
def daysInMonth (y m : Nat) : Nat :=
  if m = 2 then (if isLeapYear y then 29 else 28)
  else if m = 4 || m = 6 || m = 9 || m = 11 then 30
  else 31

/-- Two digits taken from the head of the input. -/
def twoDigits (cs : List Char) : Option (Nat × List Char) :=
  match cs with
  | a :: b :: rest => if a.isDigit && b.isDigit then some (digitsToNat [a, b], rest) else none
  | _ => none

/-- Time-zone offset tail of an ISO date-time: empty, `Z`, or a signed
`hh:mm` offset. -/
def validOffsetPart : List Char → Bool
  | [] => true
  | ['Z'] => true
  | c :: rest =>
    (c = '+' || c = '-') &&
    (match twoDigits rest with
     | some (hh, ':' :: r2) =>
       decide (hh ≤ 23) &&
       (match twoDigits r2 with
        | some (mm, []) => decide (mm ≤ 59)
        | _ => false)
     | _ => false)

/-- Time part of an ISO date-time after the `T`: `hh:mm`, optional `:ss`,
optional fractional seconds, optional offset. -/
def validTimePart (cs : List Char) : Bool :=
  match twoDigits cs with
  | some (hh, ':' :: r1) =>
    decide (hh ≤ 23) &&
    (match twoDigits r1 with
     | some (mm, r2) =>
       decide (mm ≤ 59) &&
       (match r2 with
        | ':' :: r3 =>
          (match twoDigits r3 with
           | some (ss, r4) =>
             decide (ss ≤ 59) &&
             (match r4 with
              | '.' :: r5 =>
                decide (r5.takeWhile Char.isDigit ≠ []) &&
                validOffsetPart (r5.dropWhile Char.isDigit)
              | _ => validOffsetPart r4)
           | none => false)
        | _ => validOffsetPart r2)
     | none => false)
  | _ => false

/-- Model of `!isNaN(new Date(value).getTime())` for strings whose first ten
characters match `\d{4}-\d{2}-\d{2}`: the ECMAScript date-time string format.
The prefix must denote a real calendar day, and what follows must be empty or
a `T` followed by a well-formed time.  (Host-specific legacy formats outside
the ECMAScript format are outside the model.) -/
def jsDateValid (value : String) : Bool :=
  match isoDateLead value with
  | some (y, m, d, rest) =>
    decide (1 ≤ m) && decide (m ≤ 12) && decide (1 ≤ d) && decide (d ≤ daysInMonth y m) &&
    (match rest with
     | [] => true
     | 'T' :: timeTail => validTimePart timeTail
     | _ => false)
  | none => false

/-- Embedding of `validateIsoDate` (src/api-client.ts, lines 19-25): the empty
string maps to null; otherwise the value must match the date regular
expression and parse as a real date, else the function throws (modelled by
`Except.error` carrying the thrown message). -/
def validateIsoDate (value label : String) : Except String (Option String) :=
  if value = "" then .ok none
  else if (isoDateLead value).isSome && jsDateValid value then .ok (some value)
  else .error (label ++ "はYYYY-MM-DD形式で指定してください: " ++ value)

/-- Fragments contributed by one block of a message's `content` array
(src/api-client.ts, lines 59-70): non-empty plain strings are collected, and
for blocks typed `output_text` or `text` the truthy one of `text` and
`output_text` is stringified and collected. -/
def collectFromBlock (block : Json) : List String :=
  match block with
  | .str s => if s = "" then [] else [s]
  | .null => []
  | .bool _ => []
  | .num _ => []
  | other =>
    if jsGet other "type" == some (.str "output_text") ||
       jsGet other "type" == some (.str "text") then
      match jsOr (jsGet other "text") (jsGet other "output_text") with
      | some v => if v.truthy then [jsToString v] else []
      | none => []
    else []

/-- Fragments contributed by one entry of the top-level `output` array
(src/api-client.ts, lines 43-71): plain strings are collected as they are;
objects are inspected only when typed `message`, contributing their `content`
string (if non-empty) or the fragments of their content blocks. -/
def collectFromItem (item : Json) : List String :=
  match item with
  | .str s => [s]
  | .null => []
  | .bool _ => []
  | .num _ => []
  | other =>
    if jsGet other "type" == some (.str "message") then
      match jsGet other "content" with
      | some (.str c) => if c = "" then [] else [c]
      | some (.arr blocks) => (blocks.map collectFromBlock).flatten
      | _ => []
    else []

/-- The top-level `output` field coerced to a list (empty when absent or not
an array), as in src/api-client.ts lines 39-40. -/
def outputItems (payload : Json) : List Json :=
  match jsGet payload "output" with
  | some (.arr items) => items
  | _ => []

/-- All fragments collected from the `output` array. -/
def collectedTexts (payload : Json) : List String :=
  ((outputItems payload).map collectFromItem).flatten

/-- The `output`-scan-or-serialize tail of the extractor (src/api-client.ts,
lines 38-75): joined collected fragments when any exist, else the serialized
payload. -/
def extractFromOutputs (payload : Json) : String :=
  if collectedTexts payload = [] then Json.stringify payload
  else jsTrim (String.intercalate "\n" (collectedTexts payload))

/-- Embedding of `extractTextFromResponse` (src/api-client.ts, lines 28-76):
a truthy top-level `output_text` is returned at once (list elements
stringified and joined with newlines, otherwise stringified directly, then
trimmed); otherwise fragments of a top-level `output` list are joined; the
whole payload serialized is the last resort. -/
def extractTextFromResponse (payload : Json) : String :=
  match jsGet payload "output_text" with
  | some outputText =>
    if outputText.truthy then
      match outputText with
      | .arr items => jsTrim (String.intercalate "\n" (items.map jsToString))
      | other => jsTrim (jsToString other)
    else extractFromOutputs payload
  | none => extractFromOutputs payload

/-- The `SearchOptions` record of src/api-client.ts (lines 78-94); optional
fields are `Option`s, with `none` standing for both `undefined` and `null`
(the source only probes them with `??`, `?.` and truthiness, which treat the
two alike).  Numbers are embedded as rationals: the claims only compare,
clamp and transport them, which binary64 and ordered exact arithmetic decide
identically on the values involved. -/
structure SearchOptions where
  query : String
  systemPrompt : String
  maxResults : Option Rat := none
  allowedHandles : Option (List String) := none
  excludedHandles : Option (List String) := none
  fromDate : Option String := none
  toDate : Option String := none
  freshness : Option String := none
  searchMode : Option String := none
  language : Option String := none
  enableImageUnderstanding : Option Bool := none
  enableVideoUnderstanding : Option Bool := none
  temperature : Option Rat := none
  maxOutputTokens : Option Rat := none
deriving Repr, DecidableEq

/-- A value stored in the outbound `x_search` configuration object. -/
inductive ConfigVal where
  | num (q : Rat)
  | str (s : String)
  | strList (xs : List String)
  | bool (b : Bool)
deriving Repr, DecidableEq

/-- The four defaulted keys the configuration object always starts with
(src/api-client.ts, lines 112-117). -/
def baseConfig (options : SearchOptions) : List (String × ConfigVal) :=
  [("max_results", .num (options.maxResults.getD 8)),
   ("search_mode", .str (options.searchMode.getD "auto")),
   ("freshness", .str (options.freshness.getD "auto")),
   ("language", .str (options.language.getD "ja"))]

/-- `if (options.allowedHandles?.length) toolConfig.allowed_x_handles = …`
(line 118): the key is assigned only for a present non-empty list. -/
def allowedSegment (options : SearchOptions) : List (String × ConfigVal) :=
  match options.allowedHandles with
  | some hs => if hs ≠ [] then [("allowed_x_handles", ConfigVal.strList hs)] else []
  | none => []

/-- `if (options.excludedHandles?.length) …` (line 120). -/
def excludedSegment (options : SearchOptions) : List (String × ConfigVal) :=
  match options.excludedHandles with
  | some hs => if hs ≠ [] then [("excluded_x_handles", ConfigVal.strList hs)] else []
  | none => []

/-- `if (options.fromDate) …` (line 122): assigned only for a present
non-empty (truthy) string. -/
def fromDateSegment (options : SearchOptions) : List (String × ConfigVal) :=
  match options.fromDate with
  | some d => if d ≠ "" then [("from_date", ConfigVal.str d)] else []
  | none => []

/-- `if (options.toDate) …` (line 123). -/
def toDateSegment (options : SearchOptions) : List (String × ConfigVal) :=
  match options.toDate with
  | some d => if d ≠ "" then [("to_date", ConfigVal.str d)] else []
  | none => []

/-- `if (options.enableImageUnderstanding) …` (line 124): assigned only when
the flag is present and true. -/
def imageSegment (options : SearchOptions) : List (String × ConfigVal) :=
  if options.enableImageUnderstanding.getD false then
    [("enable_image_understanding", ConfigVal.bool true)] else []

/-- `if (options.enableVideoUnderstanding) …` (line 126). -/
def videoSegment (options : SearchOptions) : List (String × ConfigVal) :=
  if options.enableVideoUnderstanding.getD false then
    [("enable_video_understanding", ConfigVal.bool true)] else []

/-- The `x_search` tool configuration object built by `search`
(src/api-client.ts, lines 112-127), as the ordered key-value list the
JavaScript object construction produces: four always-present defaulted keys,
then one conditional assignment per optionally-sent key. -/
def buildToolConfig (options : SearchOptions) : List (String × ConfigVal) :=
  baseConfig options ++ allowedSegment options ++ excludedSegment options ++
  fromDateSegment options ++ toDateSegment options ++
  imageSegment options ++ videoSegment options

/-- Lookup of a key in the configuration object (first binding; the builder
never repeats a key). -/
def configLookup (cfg : List (String × ConfigVal)) (key : String) : Option ConfigVal :=
  match cfg with
  | [] => none
  | (k, v) :: rest => if k = key then some v else configLookup rest key

/-- The client configuration read once at construction
(src/api-client.ts, lines 96-105). -/
structure XSearchAPIClient where
  apiKey : String
  apiBase : String
  model : String
deriving Repr, DecidableEq

/-- The outbound request body built by `search` (src/api-client.ts, lines
129-138): model, the two-message input, the single `x_search` tool
descriptor, and the two always-present top-level numbers. -/
structure RequestPayload where
  model : String
  inputMessages : List (String × String)
  toolType : String
  toolConfig : List (String × ConfigVal)
  temperature : Rat
  max_output_tokens : Rat
deriving Repr, DecidableEq

/-- The payload `search` posts for a given client and options. -/
def buildPayload (client : XSearchAPIClient) (options : SearchOptions) : RequestPayload :=
  { model := client.model,
    inputMessages := [("system", options.systemPrompt), ("user", jsTrim options.query)],
    toolType := "x_search",
    toolConfig := buildToolConfig options,
    temperature := options.temperature.getD (1 / 5),
    max_output_tokens := options.maxOutputTokens.getD 900 }

/-- Outcome of the single `fetch` a `search` call performs: either the
promise rejects (network failure or timeout, `err` being the stringified
exception) or a response settles with a status and a body text. -/
inductive FetchOutcome where
  | failure (err : String)
  | response (status : Nat) (rawBody : String)
deriving Repr, DecidableEq

/-- Embedding of `XSearchAPIClient.search` (src/api-client.ts, lines
107-188).  The single `fetch` the call performs is modelled by `transport`,
mapping the posted payload to its outcome; missing credential and every
transport outcome map to a returned string, never an exception. -/
def XSearchAPIClient.search (client : XSearchAPIClient) (options : SearchOptions)
    (transport : RequestPayload → FetchOutcome) : String :=
  if client.apiKey = "" then
    "XAI_API_KEY (またはGROK_API_KEY) が設定されていません。"
  else
    match transport (buildPayload client options) with
    | .failure err => "Grok APIへの接続に失敗しました: " ++ err
    | .response status rawBody =>
      if 300 ≤ status then
        match Json.parse rawBody with
        | some errorPayload =>
          let errorMessage :=
            match jsGet errorPayload "error" with
            | some e =>
              if e.isObjLike then
                match jsGet e "message" with
                | some m => if m.truthy then jsToString m else e.stringify
                | none => e.stringify
              else
                match e with
                | .str s => if s ≠ "" then s else errorPayload.stringify
                | _ => errorPayload.stringify
            | none => errorPayload.stringify
          "Grok APIエラー(" ++ toString status ++ "): " ++ errorMessage
        | none => "Grok APIエラー(" ++ toString status ++ "): " ++ rawBody
      else
        match Json.parse rawBody with
        | none => "Grok APIの応答を解析できませんでした: " ++ rawBody
        | some responsePayload =>
          let text := extractTextFromResponse responsePayload
          if text = "" then responsePayload.stringify else text

/-- `Math.max` on two (non-NaN) numbers. -/
def jsMax (a b : Rat) : Rat := if a ≤ b then b else a

/-- `Math.min` on two (non-NaN) numbers. -/
def jsMin (a b : Rat) : Rat := if a ≤ b then a else b

theorem le_jsMax_left (a b : Rat) : a ≤ jsMax a b := by
  unfold jsMax
  split
  · assumption
  · exact le_refl a

theorem jsMax_le (a b c : Rat) (h1 : a ≤ c) (h2 : b ≤ c) : jsMax a b ≤ c := by
  unfold jsMax
  split <;> assumption

theorem jsMin_le_left (a b : Rat) : jsMin a b ≤ a := by
  unfold jsMin
  split
  · exact le_refl a
  · exact le_of_not_le (by assumption)

/-- The system prompt of `search_posts` (src/tools.ts, lines 13-18). -/
def SEARCH_SYSTEM_PROMPT : String :=
  "あなたは速報性の高いニュースリサーチャーです。" ++
  "GrokのX検索ツールで取得した投稿について、以下の形式で報告してください:\n" ++
  "1. 主要な投稿の要点を箇条書きでまとめる（各投稿にポストURLを付記）\n" ++
  "2. 投稿者のハンドルとポストURLを必ず含める\n" ++
  "3. 投稿日時がわかる場合は記載する"

/-- The system prompt of `search_user_posts` (src/tools.ts, lines 20-25). -/
def USER_SEARCH_SYSTEM_PROMPT : String :=
  "あなたはSNSアナリストです。" ++
  "指定されたユーザーのX投稿を分析し、以下の形式で報告してください:\n" ++
  "1. 各投稿の要点をまとめる（ポストURLを付記）\n" ++
  "2. 投稿の傾向やトピックを簡潔に説明する\n" ++
  "3. 投稿日時がわかる場合は記載する"

/-- The `summary` analysis prompt (src/tools.ts, lines 28-33). -/
def SUMMARY_PROMPT : String :=
  "あなたはSNS分析の専門家です。" ++
  "指定されたトピックについてXの投稿を調査し、以下の形式で分析結果を報告してください:\n" ++
  "1. **概要**: トピックに関する全体的な状況（2-3文）\n" ++
  "2. **主要な意見・情報**: 重要な投稿を箇条書きで5-8件（ポストURLを付記）\n" ++
  "3. **まとめ**: 全体的な傾向や注目点"

/-- The `sentiment` analysis prompt (src/tools.ts, lines 34-40). -/
def SENTIMENT_PROMPT : String :=
  "あなたはSNS感情分析の専門家です。" ++
  "指定されたトピックについてXの投稿を調査し、以下の形式で感情分析を報告してください:\n" ++
  "1. **全体的な感情傾向**: ポジティブ/ネガティブ/中立の割合感\n" ++
  "2. **肯定的な意見**: 代表的な投稿を3-5件（ポストURLを付記）\n" ++
  "3. **否定的な意見**: 代表的な投稿を3-5件（ポストURLを付記）\n" ++
  "4. **総評**: 賛否のバランスと主な論点"

/-- The `timeline` analysis prompt (src/tools.ts, lines 41-46). -/
def TIMELINE_PROMPT : String :=
  "あなたはニュースタイムライン作成の専門家です。" ++
  "指定されたトピックについてXの投稿を時系列で調査し、以下の形式で報告してください:\n" ++
  "1. 時系列順に主要な投稿・出来事を列挙する（日時とポストURLを付記）\n" ++
  "2. 各イベント間の関連性や因果関係を説明する\n" ++
  "3. 最新の状況をまとめる"

/-- Result of the JavaScript property read `ANALYSIS_PROMPTS[aspect]`: either
an own entry of the object literal (one of the three prompt strings) or a
truthy non-string member inherited from `Object.prototype`. -/
inductive PromptEntry where
  | own (prompt : String)
  | protoMember
deriving Repr, DecidableEq

/-- The property read `ANALYSIS_PROMPTS[aspect]` on the plain object literal
of src/tools.ts lines 27-47, for the lowercased keys the handler can form.
The own keys yield their prompt strings.  Because the literal inherits from
`Object.prototype`, the keys `constructor` and `__proto__` do not yield
`undefined` but a truthy inherited member (the `Object` constructor function
and the prototype object); these are the only `Object.prototype` member
names consisting solely of lowercase characters, so every other lowercased
key yields `undefined` (`none`). -/
def ANALYSIS_PROMPTS_get (aspect : String) : Option PromptEntry :=
  if aspect = "summary" then some (.own SUMMARY_PROMPT)
  else if aspect = "sentiment" then some (.own SENTIMENT_PROMPT)
  else if aspect = "timeline" then some (.own TIMELINE_PROMPT)
  else if aspect = "constructor" ∨ aspect = "__proto__" then some .protoMember
  else none

/-- What a tool handler does once invoked: return a text result directly, or
invoke `XSearchAPIClient.search` with the given options and return its
result.  `callProtoPrompt` records the `analyze_topic` path in which the
system prompt is a member inherited from `Object.prototype` — a function or
object, not representable as a `String`; the carried options hold the
remaining fields faithfully and a placeholder empty prompt. -/
inductive HandlerAction where
  | reply (text : String)
  | call (options : SearchOptions)
  | callProtoPrompt (options : SearchOptions)
deriving Repr, DecidableEq

/-- True exactly when the action invokes the client's `search` (and hence the
network transport). -/
def invokesSearch : HandlerAction → Bool
  | .reply _ => false
  | .call _ => true
  | .callProtoPrompt _ => true

/-- The options the action hands to `search`, if it calls at all. -/
def HandlerAction.requestOptions : HandlerAction → Option SearchOptions
  | .reply _ => none
  | .call options => some options
  | .callProtoPrompt options => some options

/-- Parameters of the `search_posts` tool after schema validation filled the
defaults (src/tools.ts, lines 59-94). -/
structure SearchPostsParams where
  query : String
  max_results : Rat := 8
  allowed_x_handles : String := ""
  excluded_x_handles : String := ""
  from_date : String := ""
  to_date : String := ""
  freshness : String := "auto"
  search_mode : String := "auto"
  language : String := "ja"
  enable_image_understanding : Bool := false
  enable_video_understanding : Bool := false
  temperature : Rat := 1 / 5
  max_output_tokens : Rat := 900
deriving Repr, DecidableEq

/-- Embedding of the `search_posts` handler (src/tools.ts, lines 95-136):
guard the query, clamp the numeric parameters, parse both handle lists and
reject their combination, validate both dates, then call `search`. -/
def searchPostsHandler (params : SearchPostsParams) : HandlerAction :=
  if jsTrim params.query = "" then .reply "検索クエリを指定してください。"
  else
    let maxResults := jsMax 1 (jsMin 25 params.max_results)
    let temperature := jsMax 0 (jsMin 1 params.temperature)
    let allowed := parseHandles params.allowed_x_handles
    let excluded := parseHandles params.excluded_x_handles
    if allowed.length > 0 ∧ excluded.length > 0 then
      .reply "allowed_x_handlesとexcluded_x_handlesは同時に指定できません。"
    else
      match validateIsoDate params.from_date "from_date" with
      | .error e => .reply e
      | .ok _ =>
        match validateIsoDate params.to_date "to_date" with
        | .error e => .reply e
        | .ok _ =>
          .call
            { query := params.query,
              systemPrompt := SEARCH_SYSTEM_PROMPT,
              maxResults := some maxResults,
              allowedHandles := if allowed.length > 0 then some allowed else none,
              excludedHandles := if excluded.length > 0 then some excluded else none,
              fromDate := if params.from_date = "" then none else some params.from_date,
              toDate := if params.to_date = "" then none else some params.to_date,
              freshness := some (jsStrOr (jsToLower params.freshness) "auto"),
              searchMode := some (jsStrOr (jsToLower params.search_mode) "auto"),
              language := some params.language,
              enableImageUnderstanding := some params.enable_image_understanding,
              enableVideoUnderstanding := some params.enable_video_understanding,
              temperature := some temperature,
              maxOutputTokens := some params.max_output_tokens }

/-- Parameters of the `search_user_posts` tool after schema validation filled
the defaults (src/tools.ts, lines 142-160). -/
structure SearchUserPostsParams where
  username : String
  query : String := ""
  max_results : Rat := 10
  from_date : String := ""
  to_date : String := ""
  freshness : String := "auto"
  search_mode : String := "latest"
  language : String := "ja"
  max_output_tokens : Rat := 900
deriving Repr, DecidableEq

/-- Embedding of the `search_user_posts` handler (src/tools.ts, lines
161-195): guard the username, strip one leading at sign, build the search
query, clamp the result count, validate both dates, then call `search` with
the user as the only allowed handle. -/
def searchUserPostsHandler (params : SearchUserPostsParams) : HandlerAction :=
  if jsTrim params.username = "" then .reply "ユーザー名を指定してください。"
  else
    let handle := match (jsTrim params.username).toList with
      | '@' :: tl => String.mk tl
      | other => String.mk other
    let searchQuery := if jsTrim params.query = "" then "@" ++ handle ++ "の投稿"
      else "@" ++ handle ++ " " ++ jsTrim params.query
    let maxResults := jsMax 1 (jsMin 25 params.max_results)
    match validateIsoDate params.from_date "from_date" with
    | .error e => .reply e
    | .ok _ =>
      match validateIsoDate params.to_date "to_date" with
      | .error e => .reply e
      | .ok _ =>
        .call
          { query := searchQuery,
            systemPrompt := USER_SEARCH_SYSTEM_PROMPT,
            maxResults := some maxResults,
            allowedHandles := some [handle],
            fromDate := if params.from_date = "" then none else some params.from_date,
            toDate := if params.to_date = "" then none else some params.to_date,
            freshness := some (jsStrOr (jsToLower params.freshness) "auto"),
            searchMode := some (jsStrOr (jsToLower params.search_mode) "latest"),
            language := some params.language,
            maxOutputTokens := some params.max_output_tokens }

/-- Parameters of the `analyze_topic` tool after schema validation filled the
defaults (src/tools.ts, lines 204-223). -/
structure AnalyzeTopicParams where
  topic : String
  aspect : String := "summary"
  max_results : Rat := 15
  from_date : String := ""
  to_date : String := ""
  freshness : String := "week"
  language : String := "ja"
  max_output_tokens : Rat := 1500
deriving Repr, DecidableEq

/-- Embedding of the `analyze_topic` handler (src/tools.ts, lines 224-260):
guard the topic, lowercase the aspect (empty falling back to `summary`),
look the aspect up in `ANALYSIS_PROMPTS`, reject an `undefined` result,
clamp the result count, validate both dates, then call `search`.  A lookup
that hits an inherited `Object.prototype` member is truthy, passes the
check, and reaches `search` with that member as the system prompt. -/
def analyzeTopicHandler (params : AnalyzeTopicParams) : HandlerAction :=
  if jsTrim params.topic = "" then .reply "分析対象のトピックを指定してください。"
  else
    let aspect := jsStrOr (jsToLower params.aspect) "summary"
    match ANALYSIS_PROMPTS_get aspect with
    | none =>
      .reply ("aspectは summary/sentiment/timeline のいずれかを指定してください（指定値: " ++
        params.aspect ++ "）")
    | some entry =>
      let maxResults := jsMax 1 (jsMin 25 params.max_results)
      match validateIsoDate params.from_date "from_date" with
      | .error e => .reply e
      | .ok _ =>
        match validateIsoDate params.to_date "to_date" with
        | .error e => .reply e
        | .ok _ =>
          let base : SearchOptions :=
            { query := jsTrim params.topic,
              systemPrompt := "",
              maxResults := some maxResults,
              fromDate := if params.from_date = "" then none else some params.from_date,
              toDate := if params.to_date = "" then none else some params.to_date,
              freshness := some (jsStrOr (jsToLower params.freshness) "week"),
              searchMode := some "auto",
              language := some params.language,
              temperature := some (3 / 10),
              maxOutputTokens := some params.max_output_tokens }
          match entry with
          | .own prompt => .call { base with systemPrompt := prompt }
          | .protoMember => .callProtoPrompt base

theorem normChar_ne_fullwidth (c : Char) : normChar c ≠ '＠' := by
  unfold normChar
  by_cases h : c = '＠' <;> simp [h]

theorem splitOnComma_ne_nil (cs : List Char) : splitOnComma cs ≠ [] := by
  induction cs with
  | nil => simp [splitOnComma]
  | cons c rest ih =>
    unfold splitOnComma
    by_cases h : c = ','
    · simp [h]
    · rw [if_neg h]
      cases hsp : splitOnComma rest with
      | nil => exact absurd hsp ih
      | cons p ps => simp

theorem mem_of_mem_splitOnComma (cs part : List Char) (hp : part ∈ splitOnComma cs) :
    ∀ c ∈ part, c ∈ cs := by
  induction cs generalizing part with
  | nil =>
    simp [splitOnComma] at hp
    simp [hp]
  | cons c0 rest ih =>
    unfold splitOnComma at hp
    by_cases h : c0 = ','
    · rw [if_pos h] at hp
      rcases List.mem_cons.mp hp with h1 | h1
      · simp [h1]
      · intro c hc
        exact List.mem_cons_of_mem _ (ih part h1 c hc)
    · rw [if_neg h] at hp
      cases hsp : splitOnComma rest with
      | nil => exact absurd hsp (splitOnComma_ne_nil rest)
      | cons p ps =>
        rw [hsp] at hp
        rcases List.mem_cons.mp hp with h1 | h1
        · subst h1
          intro c hc
          rcases List.mem_cons.mp hc with h2 | h2
          · simp [h2]
          · exact List.mem_cons_of_mem _ (ih p (by rw [hsp]; exact List.mem_cons_self p ps) c h2)
        · intro c hc
          exact List.mem_cons_of_mem _
            (ih part (by rw [hsp]; exact List.mem_cons_of_mem p h1) c hc)

theorem mem_of_mem_trimChars (cs : List Char) (c : Char) (h : c ∈ trimChars cs) : c ∈ cs := by
  unfold trimChars at h
  rw [List.mem_reverse] at h
  have h1 := (List.dropWhile_sublist (l := (cs.dropWhile isJsSpace).reverse) (p := isJsSpace)).subset h
  rw [List.mem_reverse] at h1
  exact (List.dropWhile_sublist (l := cs) (p := isJsSpace)).subset h1

/-- Every handle produced by `parseHandles` is built from characters of the
normalized input, so it never contains a full-width at sign, and it is
non-empty by construction. -/
theorem parseHandles_mem_shape (s h : String) (hmem : h ∈ parseHandles s) :
    h ≠ "" ∧ ∀ c ∈ h.toList, c ≠ '＠' := by
  unfold parseHandles at hmem
  split at hmem
  · simp at hmem
  · obtain ⟨part, hpart, heq⟩ := List.mem_filterMap.mp hmem
    simp only at heq
    by_cases h1 : trimChars part = []
    · simp [h1] at heq
    · rw [if_neg h1] at heq
      by_cases h2 : (if (trimChars part).head? = some '@' then (trimChars part).tail
          else trimChars part) = []
      · rw [if_pos h2] at heq
        exact absurd heq (by simp)
      · rw [if_neg h2] at heq
        have hh : h = String.mk (if (trimChars part).head? = some '@' then (trimChars part).tail
            else trimChars part) := ((Option.some.injEq _ _).mp heq).symm
        constructor
        · intro habs
          rw [hh] at habs
          exact h2 (by simpa using congrArg String.toList habs)
        · intro c hc
          rw [hh] at hc
          have hcs : c ∈ (if (trimChars part).head? = some '@' then (trimChars part).tail
              else trimChars part) := hc
          have hct : c ∈ trimChars part := by
            by_cases h3 : (trimChars part).head? = some '@'
            · rw [if_pos h3] at hcs
              exact (List.tail_sublist (trimChars part)).subset hcs
            · rw [if_neg h3] at hcs
              exact hcs
          have hcp : c ∈ part := mem_of_mem_trimChars part c hct
          have hcm : c ∈ s.toList.map normChar := mem_of_mem_splitOnComma _ part hpart c hcp
          obtain ⟨orig, _, horig⟩ := List.mem_map.mp hcm
          rw [← horig]
          exact normChar_ne_fullwidth orig

/-- C4 counterexample: the source strips only a single leading at sign, so
`parseHandles "@@a"` returns an entry that still begins with an ASCII `@`,
refuting the claim that no returned entry has a leading `@`. -/
theorem parseHandles_double_at_counterexample :
    parseHandles "@@a" = ["@a"] ∧ ("@a".toList.head? = some '@') := by
  constructor
  · rfl
  · rfl

/-- C4 (amended): for every input, `parseHandles` succeeds and returns a list
with no empty strings and no full-width `＠` anywhere (in particular not
leading); only a single leading ASCII `@` per entry is stripped, so an entry
can still begin with `@` when the trimmed input part began with several.
Order follows the input and duplicates are preserved, as the examples show:
`parseHandles "@a, ＠b,,c" = ["a","b","c"]`, `parseHandles "" = []`,
`parseHandles "a,b,a" = ["a","b","a"]`. -/
theorem parseHandles_spec :
    (∀ s h : String, h ∈ parseHandles s → h ≠ "" ∧ ∀ c ∈ h.toList, c ≠ '＠') ∧
    parseHandles "@a, ＠b,,c" = ["a", "b", "c"] ∧
    parseHandles "" = [] ∧
    parseHandles "a,b,a" = ["a", "b", "a"] := by
  refine ⟨parseHandles_mem_shape, ?_, ?_, ?_⟩ <;> rfl

/-- C4 witness: the amended universal part applied at the concrete input
`"@a, ＠b,,c"` and its first returned handle. -/
theorem parseHandles_spec_witness :
    ("a" : String) ≠ "" ∧ ∀ c ∈ ("a" : String).toList, c ≠ '＠' :=
  parseHandles_spec.1 "@a, ＠b,,c" "a" (by rw [parseHandles_spec.2.1]; simp)

/-- C5: the empty string validates to null; a non-empty value fails with the
error naming the label and the raw value exactly when the date test fails
(no match of the leading `\d{4}-\d{2}-\d{2}` pattern, or no parse as a real
calendar date), and validates to the unchanged original string exactly when
it passes. -/
theorem validateIsoDate_spec :
    (∀ label : String, validateIsoDate "" label = .ok none) ∧
    (∀ value label : String, value ≠ "" →
      (validateIsoDate value label =
          .error (label ++ "はYYYY-MM-DD形式で指定してください: " ++ value) ↔
        ((isoDateLead value).isSome && jsDateValid value) = false) ∧
      (((isoDateLead value).isSome && jsDateValid value) = true →
        validateIsoDate value label = .ok (some value))) := by
  constructor
  · intro label
    simp [validateIsoDate]
  · intro value label hne
    constructor
    · constructor
      · intro h
        cases hc : ((isoDateLead value).isSome && jsDateValid value) with
        | true => simp [validateIsoDate, hne, hc] at h
        | false => rfl
      · intro h
        simp [validateIsoDate, hne, h]
    · intro h
      simp [validateIsoDate, hne, h]

/-- C5 witness: the theorem applied at the concrete dates of the claim. -/
theorem validateIsoDate_spec_witness :
    validateIsoDate "2024-01-15" "x" = .ok (some "2024-01-15") ∧
    validateIsoDate "2024-13-99" "x" =
      .error ("x" ++ "はYYYY-MM-DD形式で指定してください: " ++ "2024-13-99") ∧
    validateIsoDate "not-a-date" "x" =
      .error ("x" ++ "はYYYY-MM-DD形式で指定してください: " ++ "not-a-date") ∧
    validateIsoDate "" "from_date" = .ok none := by
  refine ⟨?_, ?_, ?_, validateIsoDate_spec.1 "from_date"⟩
  · exact (validateIsoDate_spec.2 "2024-01-15" "x" (by decide)).2 (by decide)
  · exact ((validateIsoDate_spec.2 "2024-13-99" "x" (by decide)).1).mpr (by decide)
  · exact ((validateIsoDate_spec.2 "not-a-date" "x" (by decide)).1).mpr (by decide)

/-- C1: the extractor evaluates the response shapes in strict priority
order: a truthy top-level `output_text` is returned at once (list elements
stringified and newline-joined, otherwise stringified directly, trimmed) and
no other shape is considered; otherwise the fragments collected from a
top-level `output` list are newline-joined and trimmed when any fragment was
collected; otherwise the serialized payload is returned, so extraction is
total.  The claim's concrete examples are included. -/
theorem extractTextFromResponse_spec :
    (∀ payload outputText : Json, jsGet payload "output_text" = some outputText →
      outputText.truthy = true →
      extractTextFromResponse payload =
        match outputText with
        | .arr items => jsTrim (String.intercalate "\n" (items.map jsToString))
        | other => jsTrim (jsToString other)) ∧
    (∀ payload : Json, truthyOpt (jsGet payload "output_text") = false →
      (collectedTexts payload ≠ [] →
        extractTextFromResponse payload =
          jsTrim (String.intercalate "\n" (collectedTexts payload))) ∧
      (collectedTexts payload = [] →
        extractTextFromResponse payload = payload.stringify)) ∧
    extractTextFromResponse (Json.obj [("output_text", Json.str "hi")]) = "hi" ∧
    extractTextFromResponse (Json.obj [("output_text", Json.arr [Json.str "a", Json.str "b"])]) =
      "a\nb" ∧
    extractTextFromResponse
      (Json.obj [("output", Json.arr [Json.obj [("type", Json.str "message"),
        ("content", Json.arr [Json.obj [("type", Json.str "output_text"),
          ("text", Json.str "x")]])]])]) = "x" ∧
    extractTextFromResponse (Json.obj []) = (Json.obj []).stringify := by
  refine ⟨?_, ?_, rfl, rfl, rfl, rfl⟩
  · intro payload outputText hget htruthy
    unfold extractTextFromResponse
    rw [hget]
    simp only [htruthy, if_true]
  · intro payload hfalsy
    have hout : extractTextFromResponse payload = extractFromOutputs payload := by
      unfold extractTextFromResponse
      cases hget : jsGet payload "output_text" with
      | none => rfl
      | some v =>
        rw [hget] at hfalsy
        simp only [truthyOpt] at hfalsy
        simp [hfalsy]
    constructor
    · intro hne
      rw [hout]
      unfold extractFromOutputs
      rw [if_neg hne]
    · intro hnil
      rw [hout]
      unfold extractFromOutputs
      rw [if_pos hnil]

/-- C1 witness: the theorem's conditional parts applied at the concrete
payloads of the claim. -/
theorem extractTextFromResponse_spec_witness :
    extractTextFromResponse (Json.obj [("output_text", Json.str "hi")]) =
      jsTrim (jsToString (Json.str "hi")) ∧
    extractTextFromResponse (Json.obj [("output_text", Json.arr [Json.str "a", Json.str "b"])]) =
      jsTrim (String.intercalate "\n" ([Json.str "a", Json.str "b"].map jsToString)) ∧
    extractTextFromResponse (Json.obj []) = (Json.obj []).stringify := by
  refine ⟨?_, ?_, ?_⟩
  · exact extractTextFromResponse_spec.1 (Json.obj [("output_text", Json.str "hi")])
      (Json.str "hi") rfl rfl
  · exact extractTextFromResponse_spec.1
      (Json.obj [("output_text", Json.arr [Json.str "a", Json.str "b"])])
      (Json.arr [Json.str "a", Json.str "b"]) rfl rfl
  · exact (extractTextFromResponse_spec.2.1 (Json.obj []) rfl).2 rfl

/-- C2: for every request and every transport outcome, `search` returns a
string — each of the five outcome classes terminates in the stated returned
text, and in particular a success status with an unparseable body returns
the parse-failure message embedding the raw body. -/
theorem search_spec :
    ∀ (client : XSearchAPIClient) (options : SearchOptions)
      (transport : RequestPayload → FetchOutcome),
      (client.apiKey = "" →
        client.search options transport =
          "XAI_API_KEY (またはGROK_API_KEY) が設定されていません。") ∧
      (client.apiKey ≠ "" → ∀ err,
        transport (buildPayload client options) = .failure err →
        client.search options transport = "Grok APIへの接続に失敗しました: " ++ err) ∧
      (client.apiKey ≠ "" → ∀ status rawBody,
        transport (buildPayload client options) = .response status rawBody →
        300 ≤ status →
        ∃ message, client.search options transport =
          "Grok APIエラー(" ++ toString status ++ "): " ++ message) ∧
      (client.apiKey ≠ "" → ∀ status rawBody,
        transport (buildPayload client options) = .response status rawBody →
        status < 300 → Json.parse rawBody = none →
        client.search options transport =
          "Grok APIの応答を解析できませんでした: " ++ rawBody) ∧
      (client.apiKey ≠ "" → ∀ status rawBody responsePayload,
        transport (buildPayload client options) = .response status rawBody →
        status < 300 → Json.parse rawBody = some responsePayload →
        client.search options transport =
          (if extractTextFromResponse responsePayload = "" then responsePayload.stringify
           else extractTextFromResponse responsePayload)) := by
  intro client options transport
  refine ⟨?_, ?_, ?_, ?_, ?_⟩
  · intro hkey
    simp [XSearchAPIClient.search, hkey]
  · intro hkey err htr
    simp [XSearchAPIClient.search, hkey, htr]
  · intro hkey status rawBody htr hstatus
    cases hp : Json.parse rawBody with
    | none =>
      exact ⟨rawBody, by simp [XSearchAPIClient.search, hkey, htr, hstatus, hp]⟩
    | some errorPayload =>
      refine ⟨?_, ?_⟩
      · exact
          match jsGet errorPayload "error" with
          | some e =>
            if e.isObjLike then
              match jsGet e "message" with
              | some m => if m.truthy then jsToString m else e.stringify
              | none => e.stringify
            else
              match e with
              | .str s => if s ≠ "" then s else errorPayload.stringify
              | _ => errorPayload.stringify
          | none => errorPayload.stringify
      · simp [XSearchAPIClient.search, hkey, htr, hstatus, hp]
  · intro hkey status rawBody htr hstatus hp
    simp [XSearchAPIClient.search, hkey, htr, Nat.not_le.mpr hstatus, hp]
  · intro hkey status rawBody responsePayload htr hstatus hp
    simp [XSearchAPIClient.search, hkey, htr, Nat.not_le.mpr hstatus, hp]

/-- A concrete configured client used by witnesses. -/
def witnessClient : XSearchAPIClient :=
  { apiKey := "k", apiBase := "https://api.x.ai/v1", model := "grok-4-0709" }

/-- Concrete minimal search options used by witnesses. -/
def witnessOptions : SearchOptions :=
  { query := "q", systemPrompt := "s" }

/-- C2 witness: a 200 response whose body is the unparseable text
`not json` makes `search` return the parse-failure message embedding it. -/
theorem search_spec_witness :
    XSearchAPIClient.search witnessClient witnessOptions
        (fun _ => FetchOutcome.response 200 "not json") =
      "Grok APIの応答を解析できませんでした: not json" :=
  (search_spec witnessClient witnessOptions
      (fun _ => FetchOutcome.response 200 "not json")).2.2.2.1
    (by decide) 200 "not json" rfl (by decide) rfl

/-- C6: every response with status at least 300 makes `search` return (never
throw) a string of the form prefix(status): message, with the message derived
from the body in the source's order — for a parseable body whose `error`
field is object-like, its truthy `message` sub-field stringified, else the
`error` object serialized; for a non-empty `error` string, that string; for
every other `error` value (absent, null, boolean, number, empty string) the
whole parsed payload serialized; and for an unparseable body the raw body
text. -/
theorem search_upstream_error_spec :
    ∀ (client : XSearchAPIClient) (options : SearchOptions)
      (transport : RequestPayload → FetchOutcome) (status : Nat) (rawBody : String),
      client.apiKey ≠ "" →
      transport (buildPayload client options) = .response status rawBody →
      300 ≤ status →
      (Json.parse rawBody = none →
        client.search options transport =
          "Grok APIエラー(" ++ toString status ++ "): " ++ rawBody) ∧
      (∀ errorPayload, Json.parse rawBody = some errorPayload →
        (∀ e, jsGet errorPayload "error" = some e → e.isObjLike = true →
          (∀ m, jsGet e "message" = some m → m.truthy = true →
            client.search options transport =
              "Grok APIエラー(" ++ toString status ++ "): " ++ jsToString m) ∧
          (∀ m, jsGet e "message" = some m → m.truthy = false →
            client.search options transport =
              "Grok APIエラー(" ++ toString status ++ "): " ++ e.stringify) ∧
          (jsGet e "message" = none →
            client.search options transport =
              "Grok APIエラー(" ++ toString status ++ "): " ++ e.stringify)) ∧
        (∀ s, jsGet errorPayload "error" = some (.str s) → s ≠ "" →
          client.search options transport =
            "Grok APIエラー(" ++ toString status ++ "): " ++ s) ∧
        (jsGet errorPayload "error" = some (.str "") →
          client.search options transport =
            "Grok APIエラー(" ++ toString status ++ "): " ++ errorPayload.stringify) ∧
        ((jsGet errorPayload "error" = none ∨ jsGet errorPayload "error" = some .null ∨
            (∃ b, jsGet errorPayload "error" = some (.bool b)) ∨
            (∃ n, jsGet errorPayload "error" = some (.num n))) →
          client.search options transport =
            "Grok APIエラー(" ++ toString status ++ "): " ++ errorPayload.stringify)) := by
  intro client options transport status rawBody hkey htr hstatus
  constructor
  · intro hp
    simp [XSearchAPIClient.search, hkey, htr, hstatus, hp]
  · intro errorPayload hp
    refine ⟨?_, ?_, ?_, ?_⟩
    · intro e he hobj
      refine ⟨?_, ?_, ?_⟩
      · intro m hm hmt
        simp [XSearchAPIClient.search, hkey, htr, hstatus, hp, he, hobj, hm, hmt]
      · intro m hm hmt
        simp [XSearchAPIClient.search, hkey, htr, hstatus, hp, he, hobj, hm, hmt]
      · intro hm
        simp [XSearchAPIClient.search, hkey, htr, hstatus, hp, he, hobj, hm]
    · intro s he hs
      simp [XSearchAPIClient.search, hkey, htr, hstatus, hp, he, hs, Json.isObjLike]
    · intro he
      simp [XSearchAPIClient.search, hkey, htr, hstatus, hp, he, Json.isObjLike]
    · intro he
      rcases he with he | he | ⟨b, he⟩ | ⟨n, he⟩ <;>
        simp [XSearchAPIClient.search, hkey, htr, hstatus, hp, he, Json.isObjLike]

/-- The upstream error body of the end-to-end 429 scenario. -/
def rateLimitedBody : String :=
  "\x7b\"error\":\x7b\"message\":\"rate limited\"\x7d\x7d"

/-- C6 witness: a 429 response with body `{"error":{"message":"rate
limited"}}` yields exactly the error string containing `429` and `rate
limited`. -/
theorem search_upstream_error_spec_witness :
    XSearchAPIClient.search witnessClient witnessOptions
        (fun _ => FetchOutcome.response 429 rateLimitedBody) =
      "Grok APIエラー(429): rate limited" := by
  have h := search_upstream_error_spec witnessClient witnessOptions
      (fun _ => FetchOutcome.response 429 rateLimitedBody) 429 rateLimitedBody
      (by decide) rfl (by decide)
  exact (((h.2 (Json.obj [("error", Json.obj [("message", Json.str "rate limited")])]) rfl).1
      (Json.obj [("message", Json.str "rate limited")]) rfl rfl).1
    (Json.str "rate limited") rfl rfl)

/-- C3: whenever both handle parameters parse to non-empty lists, the
`search_posts` handler replies with an explanatory text and never invokes
the client's `search` (so the transport sees zero calls). -/
theorem mutual_exclusivity_guard :
    ∀ params : SearchPostsParams,
      parseHandles params.allowed_x_handles ≠ [] →
      parseHandles params.excluded_x_handles ≠ [] →
      (∃ msg, searchPostsHandler params = .reply msg) ∧
      invokesSearch (searchPostsHandler params) = false := by
  intro params ha he
  have ha' : (parseHandles params.allowed_x_handles).length > 0 := List.length_pos.mpr ha
  have he' : (parseHandles params.excluded_x_handles).length > 0 := List.length_pos.mpr he
  by_cases hq : jsTrim params.query = ""
  · exact ⟨⟨"検索クエリを指定してください。", by simp [searchPostsHandler, hq]⟩,
      by simp [searchPostsHandler, hq, invokesSearch]⟩
  · refine ⟨⟨"allowed_x_handlesとexcluded_x_handlesは同時に指定できません。", ?_⟩, ?_⟩
    · simp [searchPostsHandler, hq, ha', he']
    · simp [searchPostsHandler, hq, ha', he', invokesSearch]

/-- C3 witness: concrete parameters with both lists non-empty. -/
theorem mutual_exclusivity_guard_witness :
    (∃ msg, searchPostsHandler
        { query := "q", allowed_x_handles := "a", excluded_x_handles := "b" } = .reply msg) ∧
    invokesSearch (searchPostsHandler
        { query := "q", allowed_x_handles := "a", excluded_x_handles := "b" }) = false :=
  mutual_exclusivity_guard
    { query := "q", allowed_x_handles := "a", excluded_x_handles := "b" }
    (by decide) (by decide)

/-- C9: for each of the three tools, a blank required identifying field
(empty or whitespace-only, and the handler's optional-chaining guard treats
an absent field the same way) makes the handler return its fixed explanatory
message without invoking the client's `search`. -/
theorem required_field_guards :
    (∀ params : SearchPostsParams, jsTrim params.query = "" →
      searchPostsHandler params = .reply "検索クエリを指定してください。" ∧
      invokesSearch (searchPostsHandler params) = false) ∧
    (∀ params : SearchUserPostsParams, jsTrim params.username = "" →
      searchUserPostsHandler params = .reply "ユーザー名を指定してください。" ∧
      invokesSearch (searchUserPostsHandler params) = false) ∧
    (∀ params : AnalyzeTopicParams, jsTrim params.topic = "" →
      analyzeTopicHandler params = .reply "分析対象のトピックを指定してください。" ∧
      invokesSearch (analyzeTopicHandler params) = false) := by
  refine ⟨?_, ?_, ?_⟩
  · intro params hq
    exact ⟨by simp [searchPostsHandler, hq], by simp [searchPostsHandler, hq, invokesSearch]⟩
  · intro params hu
    exact ⟨by simp [searchUserPostsHandler, hu],
      by simp [searchUserPostsHandler, hu, invokesSearch]⟩
  · intro params ht
    exact ⟨by simp [analyzeTopicHandler, ht], by simp [analyzeTopicHandler, ht, invokesSearch]⟩

/-- C9 witness: each guard applied at a whitespace-only required field. -/
theorem required_field_guards_witness :
    (searchPostsHandler { query := " " } = .reply "検索クエリを指定してください。" ∧
      invokesSearch (searchPostsHandler { query := " " }) = false) ∧
    (searchUserPostsHandler { username := "" } = .reply "ユーザー名を指定してください。" ∧
      invokesSearch (searchUserPostsHandler { username := "" }) = false) ∧
    (analyzeTopicHandler { topic := " " } = .reply "分析対象のトピックを指定してください。" ∧
      invokesSearch (analyzeTopicHandler { topic := " " }) = false) :=
  ⟨required_field_guards.1 { query := " " } (by decide),
   required_field_guards.2.1 { username := "" } (by decide),
   required_field_guards.2.2 { topic := " " } (by decide)⟩

/-- C10 (code evaluated at the failing input): for the invalid aspect
`constructor` the lookup `ANALYSIS_PROMPTS[aspect]` yields a truthy member
inherited from `Object.prototype`, the validity check passes, and the
handler invokes the client's `search` — no error text is returned — while an
ordinary invalid aspect such as `bogus` is rejected with the documented
error text, contradicting the claim that every aspect outside
summary/sentiment/timeline is rejected without network activity. -/
theorem analyzeTopic_constructor_invokes_search :
    invokesSearch (analyzeTopicHandler { topic := "AI", aspect := "constructor" }) = true ∧
    analyzeTopicHandler { topic := "AI", aspect := "bogus" } =
      .reply "aspectは summary/sentiment/timeline のいずれかを指定してください（指定値: bogus）" := by
  exact ⟨rfl, rfl⟩

/-- C7: whenever any of the three handlers reaches a `search` call, the
result count it passes is the clamp of the request into [1, 25] and the
temperature it passes lies in [0, 1] (`search_posts` clamps its parameter;
`search_user_posts` passes none, deferring to the in-range client default;
`analyze_topic` passes the in-range constant), while `max_output_tokens` is
passed through unchanged into the outbound payload with no clamping. -/
theorem clamp_spec :
    (∀ (params : SearchPostsParams) (options : SearchOptions),
      (searchPostsHandler params).requestOptions = some options →
      options.maxResults = some (jsMax 1 (jsMin 25 params.max_results)) ∧
      1 ≤ jsMax 1 (jsMin 25 params.max_results) ∧ jsMax 1 (jsMin 25 params.max_results) ≤ 25 ∧
      options.temperature = some (jsMax 0 (jsMin 1 params.temperature)) ∧
      0 ≤ jsMax 0 (jsMin 1 params.temperature) ∧ jsMax 0 (jsMin 1 params.temperature) ≤ 1 ∧
      options.maxOutputTokens = some params.max_output_tokens ∧
      ∀ client, (buildPayload client options).max_output_tokens = params.max_output_tokens) ∧
    (∀ (params : SearchUserPostsParams) (options : SearchOptions),
      (searchUserPostsHandler params).requestOptions = some options →
      options.maxResults = some (jsMax 1 (jsMin 25 params.max_results)) ∧
      1 ≤ jsMax 1 (jsMin 25 params.max_results) ∧ jsMax 1 (jsMin 25 params.max_results) ≤ 25 ∧
      options.temperature = none ∧
      options.maxOutputTokens = some params.max_output_tokens ∧
      ∀ client, (buildPayload client options).max_output_tokens = params.max_output_tokens) ∧
    (∀ (params : AnalyzeTopicParams) (options : SearchOptions),
      (analyzeTopicHandler params).requestOptions = some options →
      options.maxResults = some (jsMax 1 (jsMin 25 params.max_results)) ∧
      1 ≤ jsMax 1 (jsMin 25 params.max_results) ∧ jsMax 1 (jsMin 25 params.max_results) ≤ 25 ∧
      options.temperature = some (3 / 10) ∧
      options.maxOutputTokens = some params.max_output_tokens ∧
      ∀ client, (buildPayload client options).max_output_tokens = params.max_output_tokens) := by
  refine ⟨?_, ?_, ?_⟩
  · intro params options h
    by_cases hq : jsTrim params.query = ""
    · simp [searchPostsHandler, hq, HandlerAction.requestOptions] at h
    · by_cases hx : (parseHandles params.allowed_x_handles).length > 0 ∧
          (parseHandles params.excluded_x_handles).length > 0
      · simp [searchPostsHandler, hq, hx, HandlerAction.requestOptions] at h
      · cases hfd : validateIsoDate params.from_date "from_date" with
        | error e =>
          simp [searchPostsHandler, hq, hx, hfd, HandlerAction.requestOptions] at h
        | ok fd =>
          cases htd : validateIsoDate params.to_date "to_date" with
          | error e =>
            simp [searchPostsHandler, hq, hx, hfd, htd, HandlerAction.requestOptions] at h
          | ok td =>
            simp only [searchPostsHandler, hq, hx, hfd, htd, if_false, if_neg,
              HandlerAction.requestOptions, Option.some.injEq] at h
            subst h
            refine ⟨rfl, le_jsMax_left 1 _,
              jsMax_le _ _ _ (by norm_num) (jsMin_le_left _ _), rfl,
              le_jsMax_left 0 _, jsMax_le _ _ _ (by norm_num) (jsMin_le_left _ _), rfl, ?_⟩
            intro client
            simp [buildPayload]
  · intro params options h
    by_cases hu : jsTrim params.username = ""
    · simp [searchUserPostsHandler, hu, HandlerAction.requestOptions] at h
    · cases hfd : validateIsoDate params.from_date "from_date" with
      | error e =>
        simp [searchUserPostsHandler, hu, hfd, HandlerAction.requestOptions] at h
      | ok fd =>
        cases htd : validateIsoDate params.to_date "to_date" with
        | error e =>
          simp [searchUserPostsHandler, hu, hfd, htd, HandlerAction.requestOptions] at h
        | ok td =>
          simp only [searchUserPostsHandler, hu, hfd, htd, if_false, if_neg,
            HandlerAction.requestOptions, Option.some.injEq] at h
          subst h
          refine ⟨rfl, le_jsMax_left 1 _,
            jsMax_le _ _ _ (by norm_num) (jsMin_le_left _ _), rfl, rfl, ?_⟩
          intro client
          simp [buildPayload]
  · intro params options h
    by_cases ht : jsTrim params.topic = ""
    · simp [analyzeTopicHandler, ht, HandlerAction.requestOptions] at h
    · cases hasp : ANALYSIS_PROMPTS_get (jsStrOr (jsToLower params.aspect) "summary") with
      | none => simp [analyzeTopicHandler, ht, hasp, HandlerAction.requestOptions] at h
      | some entry =>
        cases hfd : validateIsoDate params.from_date "from_date" with
        | error e =>
          simp [analyzeTopicHandler, ht, hasp, hfd, HandlerAction.requestOptions] at h
        | ok fd =>
          cases htd : validateIsoDate params.to_date "to_date" with
          | error e =>
            simp [analyzeTopicHandler, ht, hasp, hfd, htd, HandlerAction.requestOptions] at h
          | ok td =>
            cases entry with
            | own prompt =>
              simp only [analyzeTopicHandler, ht, hasp, hfd, htd, if_false, if_neg,
                HandlerAction.requestOptions, Option.some.injEq] at h
              subst h
              refine ⟨rfl, le_jsMax_left 1 _,
                jsMax_le _ _ _ (by norm_num) (jsMin_le_left _ _), rfl, rfl, ?_⟩
              intro client
              simp [buildPayload]
            | protoMember =>
              simp only [analyzeTopicHandler, ht, hasp, hfd, htd, if_false, if_neg,
                HandlerAction.requestOptions, Option.some.injEq] at h
              subst h
              refine ⟨rfl, le_jsMax_left 1 _,
                jsMax_le _ _ _ (by norm_num) (jsMin_le_left _ _), rfl, rfl, ?_⟩
              intro client
              simp [buildPayload]

/-- The options `search_posts` builds for `{query := "q", max_results := 100}`. -/
def clampOptions100 : SearchOptions :=
  { query := "q",
    systemPrompt := SEARCH_SYSTEM_PROMPT,
    maxResults := some 25,
    freshness := some "auto",
    searchMode := some "auto",
    language := some "ja",
    enableImageUnderstanding := some false,
    enableVideoUnderstanding := some false,
    temperature := some (jsMax 0 (jsMin 1 (1 / 5))),
    maxOutputTokens := some 900 }

/-- The options `search_posts` builds for `{query := "q", max_results := 0}`. -/
def clampOptions0 : SearchOptions :=
  { clampOptions100 with maxResults := some 1 }

/-- C7 witness: a result-count request of 100 is clamped to 25 and one of 0
to 1, while the defaulted max-output-tokens request of 900 reaches the
payload unclamped. -/
theorem clamp_spec_witness :
    (searchPostsHandler { query := "q", max_results := 100 }).requestOptions =
      some clampOptions100 ∧
    clampOptions100.maxResults = some 25 ∧
    (searchPostsHandler { query := "q", max_results := 0 }).requestOptions =
      some clampOptions0 ∧
    clampOptions0.maxResults = some 1 ∧
    (buildPayload witnessClient clampOptions100).max_output_tokens = 900 := by
  have h100 := clamp_spec.1 { query := "q", max_results := 100 } clampOptions100 rfl
  have h0 := clamp_spec.1 { query := "q", max_results := 0 } clampOptions0 rfl
  refine ⟨rfl, ?_, rfl, ?_, ?_⟩
  · rw [h100.1]
    norm_num [jsMax, jsMin]
  · rw [h0.1]
    norm_num [jsMax, jsMin]
  · rw [h100.2.2.2.2.2.2.2 witnessClient]

theorem configLookup_append (xs ys : List (String × ConfigVal)) (key : String) :
    configLookup (xs ++ ys) key = (configLookup xs key).or (configLookup ys key) := by
  induction xs with
  | nil => simp [configLookup]
  | cons p rest ih =>
    cases p with
    | mk k v =>
      by_cases h : k = key
      · simp [configLookup, h]
      · simp [configLookup, h, ih]

theorem allowedSegment_lookup_ne (options : SearchOptions) (key : String)
    (h : key ≠ "allowed_x_handles") : configLookup (allowedSegment options) key = none := by
  unfold allowedSegment
  cases options.allowedHandles with
  | none => rfl
  | some hs =>
    by_cases he : hs ≠ []
    · simp [he, configLookup, Ne.symm h]
    · simp [he, configLookup]

theorem excludedSegment_lookup_ne (options : SearchOptions) (key : String)
    (h : key ≠ "excluded_x_handles") : configLookup (excludedSegment options) key = none := by
  unfold excludedSegment
  cases options.excludedHandles with
  | none => rfl
  | some hs =>
    by_cases he : hs ≠ []
    · simp [he, configLookup, Ne.symm h]
    · simp [he, configLookup]

theorem fromDateSegment_lookup_ne (options : SearchOptions) (key : String)
    (h : key ≠ "from_date") : configLookup (fromDateSegment options) key = none := by
  unfold fromDateSegment
  cases options.fromDate with
  | none => rfl
  | some d =>
    by_cases he : d ≠ ""
    · simp [he, configLookup, Ne.symm h]
    · simp [he, configLookup]

theorem toDateSegment_lookup_ne (options : SearchOptions) (key : String)
    (h : key ≠ "to_date") : configLookup (toDateSegment options) key = none := by
  unfold toDateSegment
  cases options.toDate with
  | none => rfl
  | some d =>
    by_cases he : d ≠ ""
    · simp [he, configLookup, Ne.symm h]
    · simp [he, configLookup]

theorem imageSegment_lookup_ne (options : SearchOptions) (key : String)
    (h : key ≠ "enable_image_understanding") : configLookup (imageSegment options) key = none := by
  unfold imageSegment
  by_cases he : options.enableImageUnderstanding.getD false
  · simp [he, configLookup, Ne.symm h]
  · simp [he, configLookup]

theorem videoSegment_lookup_ne (options : SearchOptions) (key : String)
    (h : key ≠ "enable_video_understanding") : configLookup (videoSegment options) key = none := by
  unfold videoSegment
  by_cases he : options.enableVideoUnderstanding.getD false
  · simp [he, configLookup, Ne.symm h]
  · simp [he, configLookup]

theorem allowedSegment_lookup_self (options : SearchOptions) :
    configLookup (allowedSegment options) "allowed_x_handles" ≠ none ↔
      ∃ hs, options.allowedHandles = some hs ∧ hs ≠ [] := by
  unfold allowedSegment
  cases ha : options.allowedHandles with
  | none => simp [configLookup]
  | some hs =>
    by_cases he : hs ≠ []
    · simp [he, configLookup]
    · simp [he, configLookup]

theorem excludedSegment_lookup_self (options : SearchOptions) :
    configLookup (excludedSegment options) "excluded_x_handles" ≠ none ↔
      ∃ hs, options.excludedHandles = some hs ∧ hs ≠ [] := by
  unfold excludedSegment
  cases ha : options.excludedHandles with
  | none => simp [configLookup]
  | some hs =>
    by_cases he : hs ≠ []
    · simp [he, configLookup]
    · simp [he, configLookup]

theorem fromDateSegment_lookup_self (options : SearchOptions) :
    configLookup (fromDateSegment options) "from_date" ≠ none ↔
      ∃ d, options.fromDate = some d ∧ d ≠ "" := by
  unfold fromDateSegment
  cases ha : options.fromDate with
  | none => simp [configLookup]
  | some d =>
    by_cases he : d ≠ ""
    · simp [he, configLookup]
    · simp [he, configLookup]

theorem toDateSegment_lookup_self (options : SearchOptions) :
    configLookup (toDateSegment options) "to_date" ≠ none ↔
      ∃ d, options.toDate = some d ∧ d ≠ "" := by
  unfold toDateSegment
  cases ha : options.toDate with
  | none => simp [configLookup]
  | some d =>
    by_cases he : d ≠ ""
    · simp [he, configLookup]
    · simp [he, configLookup]

theorem imageSegment_lookup_self (options : SearchOptions) :
    configLookup (imageSegment options) "enable_image_understanding" ≠ none ↔
      options.enableImageUnderstanding = some true := by
  unfold imageSegment
  cases hi : options.enableImageUnderstanding with
  | none => simp [configLookup]
  | some b => cases b <;> simp [configLookup]

theorem videoSegment_lookup_self (options : SearchOptions) :
    configLookup (videoSegment options) "enable_video_understanding" ≠ none ↔
      options.enableVideoUnderstanding = some true := by
  unfold videoSegment
  cases hi : options.enableVideoUnderstanding with
  | none => simp [configLookup]
  | some b => cases b <;> simp [configLookup]

theorem configLookup_ne_none_key (xs : List (String × ConfigVal)) (key : String)
    (h : configLookup xs key ≠ none) : key ∈ xs.map Prod.fst := by
  induction xs with
  | nil => simp [configLookup] at h
  | cons p rest ih =>
    cases p with
    | mk k v =>
      by_cases hk : k = key
      · simp [hk]
      · simp only [configLookup, hk, if_false, if_neg] at h
        simp [ih h]

theorem baseConfig_keys (options : SearchOptions) :
    (baseConfig options).map Prod.fst =
      ["max_results", "search_mode", "freshness", "language"] := rfl

theorem allowedSegment_keys (options : SearchOptions) :
    ∀ k ∈ (allowedSegment options).map Prod.fst, k = "allowed_x_handles" := by
  unfold allowedSegment
  cases options.allowedHandles with
  | none => simp
  | some hs => by_cases he : hs ≠ [] <;> simp [he]

theorem excludedSegment_keys (options : SearchOptions) :
    ∀ k ∈ (excludedSegment options).map Prod.fst, k = "excluded_x_handles" := by
  unfold excludedSegment
  cases options.excludedHandles with
  | none => simp
  | some hs => by_cases he : hs ≠ [] <;> simp [he]

theorem fromDateSegment_keys (options : SearchOptions) :
    ∀ k ∈ (fromDateSegment options).map Prod.fst, k = "from_date" := by
  unfold fromDateSegment
  cases options.fromDate with
  | none => simp
  | some d => by_cases he : d ≠ "" <;> simp [he]

theorem toDateSegment_keys (options : SearchOptions) :
    ∀ k ∈ (toDateSegment options).map Prod.fst, k = "to_date" := by
  unfold toDateSegment
  cases options.toDate with
  | none => simp
  | some d => by_cases he : d ≠ "" <;> simp [he]

theorem imageSegment_keys (options : SearchOptions) :
    ∀ k ∈ (imageSegment options).map Prod.fst, k = "enable_image_understanding" := by
  unfold imageSegment
  by_cases he : options.enableImageUnderstanding.getD false <;> simp [he]

theorem videoSegment_keys (options : SearchOptions) :
    ∀ k ∈ (videoSegment options).map Prod.fst, k = "enable_video_understanding" := by
  unfold videoSegment
  by_cases he : options.enableVideoUnderstanding.getD false <;> simp [he]

/-- Search options whose caller supplied the image-understanding flag with
the value `false`. -/
def imageFalseOptions : SearchOptions :=
  { query := "q", systemPrompt := "s", enableImageUnderstanding := some false }

/-- C8 counterexample: a `SearchRequest` in which the caller supplies the
image-understanding flag (with value `false`) still omits the
`enable_image_understanding` key from the configuration object, refuting
the claimed present-iff-supplied biconditional. -/
theorem buildToolConfig_supplied_field_omitted :
    configLookup (buildToolConfig imageFalseOptions) "enable_image_understanding" = none ∧
    imageFalseOptions.enableImageUnderstanding = some false := by
  exact ⟨rfl, rfl⟩

/-- C8 (amended): the configuration object always carries the four defaulted
keys with their defaulted values; it carries `allowed_x_handles` and
`excluded_x_handles` exactly when the caller supplied a non-empty list,
`from_date` and `to_date` exactly when the caller supplied a non-empty
string, and each understanding flag exactly when the caller supplied the
value true (a supplied empty list, empty string or false flag is omitted
like an unsupplied field, never serialized as null); no key beyond these ten
ever appears; `temperature` and `max_output_tokens` are always present at
the top level of the payload. -/
theorem buildToolConfig_spec :
    ∀ options : SearchOptions,
      configLookup (buildToolConfig options) "max_results" =
        some (.num (options.maxResults.getD 8)) ∧
      configLookup (buildToolConfig options) "search_mode" =
        some (.str (options.searchMode.getD "auto")) ∧
      configLookup (buildToolConfig options) "freshness" =
        some (.str (options.freshness.getD "auto")) ∧
      configLookup (buildToolConfig options) "language" =
        some (.str (options.language.getD "ja")) ∧
      (configLookup (buildToolConfig options) "allowed_x_handles" ≠ none ↔
        ∃ hs, options.allowedHandles = some hs ∧ hs ≠ []) ∧
      (configLookup (buildToolConfig options) "excluded_x_handles" ≠ none ↔
        ∃ hs, options.excludedHandles = some hs ∧ hs ≠ []) ∧
      (configLookup (buildToolConfig options) "from_date" ≠ none ↔
        ∃ d, options.fromDate = some d ∧ d ≠ "") ∧
      (configLookup (buildToolConfig options) "to_date" ≠ none ↔
        ∃ d, options.toDate = some d ∧ d ≠ "") ∧
      (configLookup (buildToolConfig options) "enable_image_understanding" ≠ none ↔
        options.enableImageUnderstanding = some true) ∧
      (configLookup (buildToolConfig options) "enable_video_understanding" ≠ none ↔
        options.enableVideoUnderstanding = some true) ∧
      (∀ key, configLookup (buildToolConfig options) key ≠ none →
        key ∈ ["max_results", "search_mode", "freshness", "language", "allowed_x_handles",
          "excluded_x_handles", "from_date", "to_date", "enable_image_understanding",
          "enable_video_understanding"]) ∧
      (∀ client, (buildPayload client options).temperature = options.temperature.getD (1 / 5) ∧
        (buildPayload client options).max_output_tokens = options.maxOutputTokens.getD 900) := by
  intro options
  refine ⟨?_, ?_, ?_, ?_, ?_, ?_, ?_, ?_, ?_, ?_, ?_, ?_⟩
  · simp [buildToolConfig, configLookup_append, baseConfig, configLookup]
  · simp [buildToolConfig, configLookup_append, baseConfig, configLookup]
  · simp [buildToolConfig, configLookup_append, baseConfig, configLookup]
  · simp [buildToolConfig, configLookup_append, baseConfig, configLookup]
  · simp only [buildToolConfig, configLookup_append]
    rw [excludedSegment_lookup_ne _ _ (by decide), fromDateSegment_lookup_ne _ _ (by decide),
      toDateSegment_lookup_ne _ _ (by decide), imageSegment_lookup_ne _ _ (by decide),
      videoSegment_lookup_ne _ _ (by decide),
      show configLookup (baseConfig options) "allowed_x_handles" = none by
        simp [baseConfig, configLookup]]
    simp only [Option.none_or, Option.or_none]
    exact allowedSegment_lookup_self options
  · simp only [buildToolConfig, configLookup_append]
    rw [allowedSegment_lookup_ne _ _ (by decide), fromDateSegment_lookup_ne _ _ (by decide),
      toDateSegment_lookup_ne _ _ (by decide), imageSegment_lookup_ne _ _ (by decide),
      videoSegment_lookup_ne _ _ (by decide),
      show configLookup (baseConfig options) "excluded_x_handles" = none by
        simp [baseConfig, configLookup]]
    simp only [Option.none_or, Option.or_none]
    exact excludedSegment_lookup_self options
  · simp only [buildToolConfig, configLookup_append]
    rw [allowedSegment_lookup_ne _ _ (by decide), excludedSegment_lookup_ne _ _ (by decide),
      toDateSegment_lookup_ne _ _ (by decide), imageSegment_lookup_ne _ _ (by decide),
      videoSegment_lookup_ne _ _ (by decide),
      show configLookup (baseConfig options) "from_date" = none by
        simp [baseConfig, configLookup]]
    simp only [Option.none_or, Option.or_none]
    exact fromDateSegment_lookup_self options
  · simp only [buildToolConfig, configLookup_append]
    rw [allowedSegment_lookup_ne _ _ (by decide), excludedSegment_lookup_ne _ _ (by decide),
      fromDateSegment_lookup_ne _ _ (by decide), imageSegment_lookup_ne _ _ (by decide),
      videoSegment_lookup_ne _ _ (by decide),
      show configLookup (baseConfig options) "to_date" = none by
        simp [baseConfig, configLookup]]
    simp only [Option.none_or, Option.or_none]
    exact toDateSegment_lookup_self options
  · simp only [buildToolConfig, configLookup_append]
    rw [allowedSegment_lookup_ne _ _ (by decide), excludedSegment_lookup_ne _ _ (by decide),
      fromDateSegment_lookup_ne _ _ (by decide), toDateSegment_lookup_ne _ _ (by decide),
      videoSegment_lookup_ne _ _ (by decide),
      show configLookup (baseConfig options) "enable_image_understanding" = none by
        simp [baseConfig, configLookup]]
    simp only [Option.none_or, Option.or_none]
    exact imageSegment_lookup_self options
  · simp only [buildToolConfig, configLookup_append]
    rw [allowedSegment_lookup_ne _ _ (by decide), excludedSegment_lookup_ne _ _ (by decide),
      fromDateSegment_lookup_ne _ _ (by decide), toDateSegment_lookup_ne _ _ (by decide),
      imageSegment_lookup_ne _ _ (by decide),
      show configLookup (baseConfig options) "enable_video_understanding" = none by
        simp [baseConfig, configLookup]]
    simp only [Option.none_or, Option.or_none]
    exact videoSegment_lookup_self options
  · intro key h
    have hmem := configLookup_ne_none_key _ _ h
    simp only [buildToolConfig, List.map_append, List.mem_append] at hmem
    rcases hmem with ((((((hb | ha) | he) | hf) | ht) | hi) | hv)
    · rw [baseConfig_keys] at hb
      simp only [List.mem_cons, List.not_mem_nil, or_false] at hb
      rcases hb with h1 | h1 | h1 | h1 <;> simp [h1]
    · simp [allowedSegment_keys options key ha]
    · simp [excludedSegment_keys options key he]
    · simp [fromDateSegment_keys options key hf]
    · simp [toDateSegment_keys options key ht]
    · simp [imageSegment_keys options key hi]
    · simp [videoSegment_keys options key hv]
  · intro client
    exact ⟨rfl, rfl⟩
